import Mathlib

/-!
Verification of the property-normalization and analysis-prompt pipeline of the
`mootionstudio/realAi` repository, a shallow embedding in Lean 4.

The embedding models the Python fragments the claims are about:

* `src/us_real_estate.py` — `PropertyFindingAgent.parse_location`,
  `PropertyFindingAgent.get_regional_data` (with `REGIONAL_SETTINGS`),
  `PropertyFindingAgent.cached_search` (a `functools.lru_cache(maxsize=100)`
  wrapped method) and `PropertyFindingAgent.find_properties`.
* `src/ai_real_estate_agent.py` — `safe_float`, the per-record property
  mapper, and `search_properties_rapidapi`.
* `src/unnamed/part_000` — the analysis-prompt builder of its
  `PropertyFindingAgent.find_properties`.

Python dynamic values are modeled by the inductive `JValue`; machine floats
are modeled by `ℚ` (the numeric literals that occur in the sources and
claims are exact decimals; non-finite floats do not arise in any claim).
Fallible Python code is modeled in `Except PyErr`; an uncaught exception is
an `Except.error`.
-/

/-- The Python exception classes distinguished by the modeled code paths. -/
inductive PyErr where
  | typeError
  | valueError
  | keyError
  | attributeError
  | validationError
  | requestException
  | jsonDecodeError
  deriving DecidableEq, Repr

/-- A Python/JSON dynamic value: `None`, `bool`, `int`, `float` (modeled by
`ℚ`), `str`, `list`, `dict` (string keys, insertion order). -/
inductive JValue where
  | null
  | bool (b : Bool)
  | int (n : Int)
  | float (q : ℚ)
  | str (s : String)
  | arr (xs : List JValue)
  | obj (fields : List (String × JValue))

/-- Python truthiness (`bool(v)`): `None`, `False`, zero, the empty string
and empty containers are falsy. -/
def pyTruthy : JValue → Bool
  | .null => false
  | .bool b => b
  | .int n => n != 0
  | .float q => q != 0
  | .str s => s != ""
  | .arr xs => xs.length != 0
  | .obj fields => fields.length != 0

/-- First binding of a key in a modeled dict (Python dict keys are unique;
lookup returns the stored value). -/
def lookupField (fields : List (String × JValue)) (k : String) : Option JValue :=
  (fields.find? (fun e => e.1 == k)).map (fun e => e.2)

/-- Python `v.get(k, d)` on a dict; on a non-dict value the attribute access
`.get` raises `AttributeError`. -/
def pyGetD (v : JValue) (k : String) (d : JValue) : Except PyErr JValue :=
  match v with
  | .obj fields =>
    match lookupField fields k with
    | some w => .ok w
    | none => .ok d
  | _ => .error .attributeError

/-- Python `v.get(k)` (single-argument `dict.get`, default `None`). -/
def pyGet (v : JValue) (k : String) : Except PyErr JValue :=
  pyGetD v k .null

/-- Python subscription `v[k]`: `KeyError` when the key is absent from a
dict, `TypeError` when `v` is not subscriptable by a string. -/
def pySubscript (v : JValue) (k : String) : Except PyErr JValue :=
  match v with
  | .obj fields =>
    match lookupField fields k with
    | some w => .ok w
    | none => .error .keyError
  | _ => .error .typeError

/-- Python `a or b` (value of the first truthy operand, else `b`). -/
def pyOr (a b : JValue) : JValue :=
  if pyTruthy a then a else b

/-- Top-level hashability for `functools.lru_cache` keys: Python `dict` and
`list` have no `__hash__`, so hashing them raises `TypeError` before the
cache is consulted. -/
def hashableTop : JValue → Bool
  | .arr _ => false
  | .obj _ => false
  | _ => true

/-- Python whitespace stripped by `str.strip()` (the ASCII set; the modeled
inputs contain no further Unicode whitespace). -/
def isPySpace (c : Char) : Bool :=
  c == ' ' || c == '\t' || c == '\n' || c == '\x0d' || c == '\x0b' || c == '\x0c'

/-- `str.strip()` on the character list of a string. -/
def pyStripL (l : List Char) : List Char :=
  ((l.dropWhile isPySpace).reverse.dropWhile isPySpace).reverse

/-- Python `str.strip()`. -/
def pyStrip (s : String) : String :=
  String.mk (pyStripL s.data)

/-- `str.upper()` on a character list (ASCII case mapping, which agrees with
Python on the ASCII inputs of the modeled code). -/
def pyUpperL (l : List Char) : List Char :=
  l.map Char.toUpper

/-- Python `str.upper()`. -/
def pyUpper (s : String) : String :=
  String.mk (pyUpperL s.data)

/-- Python `str.lower()` (ASCII case mapping). -/
def pyLower (s : String) : String :=
  String.mk (s.data.map Char.toLower)

/-- Python `s.replace(old, "")` for a single character `old`. -/
def pyDeleteChar (old : Char) (s : String) : String :=
  String.mk (s.data.filter (fun c => !(c == old)))

/-- Python `s.replace(old, new)` for single characters. -/
def pyReplaceChar (old new : Char) (s : String) : String :=
  String.mk (s.data.map (fun c => if c == old then new else c))

/-- Python `s.split(',')`: splits at every comma; `"".split(',') = [""]`. -/
def splitComma : List Char → List (List Char)
  | [] => [[]]
  | c :: cs =>
    if c = ',' then [] :: splitComma cs
    else
      match splitComma cs with
      | [] => [[c]]
      | p :: ps => (c :: p) :: ps

/-- `PropertyFindingAgent.parse_location` (src/us_real_estate.py, lines
70-75): when the input contains a comma, `city, state =
map(str.strip, location.split(','))` — tuple unpacking raises `ValueError`
unless the split has exactly two parts — and the state is upper-cased;
otherwise `(location, None)` is returned. -/
def parse_location (location : String) : Except PyErr (String × Option String) :=
  if ',' ∈ location.data then
    match (splitComma location.data).map pyStripL with
    | [c, s] => .ok (String.mk c, some (String.mk (pyUpperL s)))
    | _ => .error .valueError
  else
    .ok (location, none)

/-- Decimal digits of a natural number (via `toString`, which matches
Python's rendering of non-negative integers). -/
def natRepr (n : Nat) : String := toString n

/-- Python `str(n)` for an `int`. -/
def intRepr (n : Int) : String := toString n

/-- Python `str(x)` for a `float`, for the values interpolated by the
modeled code: an integral float renders as `"n.0"`.  A non-integral float's
shortest-round-trip repr is abstracted by an exact fraction rendering; no
modeled claim interpolates a non-integral float. -/
def floatRepr (q : ℚ) : String :=
  if q.den = 1 then intRepr q.num ++ ".0"
  else intRepr q.num ++ "/" ++ natRepr q.den

/-- Python `str(v)` as used inside f-strings by the mapped code.  The repr
of containers is abstracted (no modeled claim interpolates a container). -/
def pyStrOf : JValue → String
  | .null => "None"
  | .bool b => if b then "True" else "False"
  | .int n => intRepr n
  | .float q => floatRepr q
  | .str s => s
  | .arr _ => "[...]"
  | .obj _ => "\x7b...\x7d"

/-- Value of a list of decimal digit characters. -/
def digitsToNat (l : List Char) : Nat :=
  l.foldl (fun a c => a * 10 + (c.toNat - '0'.toNat)) 0

/-- Exponent suffix of a Python float literal: empty, or `e`/`E` with an
optional sign and at least one digit. -/
def parseExpPart : List Char → Option Int
  | [] => some 0
  | c :: rest =>
    if c = 'e' ∨ c = 'E' then
      match rest with
      | '+' :: ds => if ds ≠ [] ∧ ds.all Char.isDigit then some (digitsToNat ds) else none
      | '-' :: ds => if ds ≠ [] ∧ ds.all Char.isDigit then some (-(digitsToNat ds : Int)) else none
      | ds => if ds ≠ [] ∧ ds.all Char.isDigit then some (digitsToNat ds) else none
    else none

/-- Unsigned part of Python `float(str)` syntax: `digits [. digits]
[exponent]` with at least one mantissa digit.  (Non-finite literals such as
`inf`/`nan` and digit-group underscores are outside the modeled domain; no
claim input uses them.) -/
def parseFloatCore (cs : List Char) : Option ℚ :=
  let ip := cs.takeWhile Char.isDigit
  let r1 := cs.dropWhile Char.isDigit
  let fr :=
    match r1 with
    | '.' :: t => (t.takeWhile Char.isDigit, t.dropWhile Char.isDigit)
    | _ => ([], r1)
  if ip = [] ∧ fr.1 = [] then none
  else
    match parseExpPart fr.2 with
    | none => none
    | some e =>
      some ((digitsToNat (ip ++ fr.1) : ℚ) / (10 : ℚ) ^ fr.1.length * (10 : ℚ) ^ e)

/-- Python `float(s)` for a string: surrounding whitespace is ignored, an
optional sign precedes the mantissa; `ValueError` (here: `none`) otherwise.
In particular `float("350,000")` fails — commas are not float syntax. -/
def pyParseFloat (s : String) : Option ℚ :=
  match pyStripL s.data with
  | '+' :: t => parseFloatCore t
  | '-' :: t => (parseFloatCore t).map (fun q => -q)
  | t => parseFloatCore t

/-- The Python builtin `float(v)`: numbers convert, strings parse
(`ValueError` on failure), `bool` converts as an `int` subclass, and
`None`/containers raise `TypeError`. -/
def pyFloatConv : JValue → Except PyErr ℚ
  | .null => .error .typeError
  | .bool b => .ok (if b then 1 else 0)
  | .int n => .ok (n : ℚ)
  | .float q => .ok q
  | .str s =>
    match pyParseFloat s with
    | some q => .ok q
    | none => .error .valueError
  | .arr _ => .error .typeError
  | .obj _ => .error .typeError

/-- The string-cleaning step of `safe_float` (src/ai_real_estate_agent.py,
lines 155-156): `if isinstance(val, str): val = val.replace('+',
'').strip()`. -/
def cleanVal : JValue → JValue
  | .str s => .str (pyStrip (pyDeleteChar '+' s))
  | v => v

/-- `safe_float` (src/ai_real_estate_agent.py, lines 153-159): clean a
string argument, then `float(...)`; `ValueError` and `TypeError` are caught
and the supplied default is returned. -/
def safe_float (val dflt : JValue) : Except PyErr JValue :=
  match pyFloatConv (cleanVal val) with
  | .ok q => .ok (.float q)
  | .error .valueError => .ok dflt
  | .error .typeError => .ok dflt
  | .error e => .error e

/-- Python `int(s)` syntax for a string: optional sign and at least one
digit (underscored digit groups are outside the modeled domain). -/
def pyParseInt (s : String) : Option Int :=
  match pyStripL s.data with
  | '+' :: ds => if ds ≠ [] ∧ ds.all Char.isDigit then some (digitsToNat ds) else none
  | '-' :: ds => if ds ≠ [] ∧ ds.all Char.isDigit then some (-(digitsToNat ds : Int)) else none
  | ds => if ds ≠ [] ∧ ds.all Char.isDigit then some (digitsToNat ds) else none

/-- Pydantic v2 validation of a required `str` field: only `str` input is
accepted (numbers are not coerced to strings). -/
def vStr : JValue → Except PyErr String
  | .str s => .ok s
  | _ => .error .validationError

/-- Pydantic v2 (lax) validation of a required `float` field: `float` and
`int` are accepted, a string is parsed with float syntax, everything else —
including `None` and `bool` — fails validation. -/
def vFloat : JValue → Except PyErr ℚ
  | .float q => .ok q
  | .int n => .ok (n : ℚ)
  | .str s =>
    match pyParseFloat s with
    | some q => .ok q
    | none => .error .validationError
  | _ => .error .validationError

/-- Pydantic v2 validation of an `Optional[float]` field (default `None`). -/
def vOptFloat : JValue → Except PyErr (Option ℚ)
  | .null => .ok none
  | v => (vFloat v).map some

/-- Pydantic v2 (lax) validation of an `Optional[int]` field: `None` stays
absent, `int` is accepted, an integral `float` is coerced, an integer string
is parsed, everything else fails validation. -/
def vOptInt : JValue → Except PyErr (Option Int)
  | .null => .ok none
  | .int n => .ok (some n)
  | .float q => if q.den = 1 then .ok (some q.num) else .error .validationError
  | .str s =>
    match pyParseInt s with
    | some n => .ok (some n)
    | none => .error .validationError
  | _ => .error .validationError

/-- The canonical property record: the `PropertyData` pydantic model of
src/ai_real_estate_agent.py (lines 34-42): required `building_name`,
`property_type`, `location_address`, `price`, `description`; optional
`square_feet`, `bedrooms`, `bathrooms` defaulting to `None`. -/
structure PropertyData where
  building_name : String
  property_type : String
  location_address : String
  price : ℚ
  description : String
  square_feet : Option ℚ
  bedrooms : Option Int
  bathrooms : Option ℚ
  deriving DecidableEq, Repr

/-- The body of the per-record loop of `search_properties_rapidapi`
(src/ai_real_estate_agent.py, lines 148-171): defensive nested `get`s, the
`or`-defaults, `safe_float` on `baths_consolidated`, the two f-strings, and
the `PropertyData(...)` pydantic validation.  Any raised error is the
per-record failure that the surrounding `except` catches.  (Python
evaluates all keyword arguments and then validates all fields at once; the
sequencing below can only differ in which error is raised, never in whether
one is raised, and the caller only distinguishes ok from error.) -/
def mapRecord (prop : JValue) : Except PyErr PropertyData := do
  let loc ← pyGetD prop "location" (.obj [])
  let address ← pyGetD loc "address" (.obj [])
  let descr ← pyGetD prop "description" (.obj [])
  let listPrice ← pyGet prop "list_price"
  let price := pyOr listPrice (.float 0)
  let line ← pyGet address "line"
  let cty ← pyGet address "city"
  let stc ← pyGet address "state_code"
  let pcode ← pyGet address "postal_code"
  let typ ← pyGet descr "type"
  let bedsD ← pyGetD descr "beds" (.str "N/A")
  let bathsD ← pyGetD descr "baths_consolidated" (.str "N/A")
  let sqftD ← pyGetD descr "sqft" (.str "N/A")
  let sqft ← pyGet descr "sqft"
  let beds ← pyGet descr "beds"
  let bathsRaw ← pyGet descr "baths_consolidated"
  let baths ← safe_float bathsRaw .null
  let building_name ← vStr (pyOr line (.str "N/A"))
  let property_type ← vStr (pyOr typ (.str "N/A"))
  let location_address :=
    pyStrOf (pyOr line (.str "")) ++ ", " ++ pyStrOf (pyOr cty (.str "")) ++ ", " ++
      pyStrOf (pyOr stc (.str "")) ++ " " ++ pyStrOf (pyOr pcode (.str ""))
  let priceQ ← vFloat price
  let descText :=
    pyStrOf bedsD ++ " hab, " ++ pyStrOf bathsD ++ " baños, " ++ pyStrOf sqftD ++ " sqft"
  let square_feet ← vOptFloat sqft
  let bedrooms ← vOptInt beds
  let bathrooms ← vOptFloat baths
  pure { building_name := building_name, property_type := property_type,
         location_address := location_address, price := priceQ,
         description := descText, square_feet := square_feet,
         bedrooms := bedrooms, bathrooms := bathrooms }

/-- The `for prop_api in results_list` loop (src/ai_real_estate_agent.py,
lines 148-173): each successfully mapped record is appended to
`properties_data`; a record whose mapping raises is reported with
`st.error` and skipped, and the loop continues. -/
def mapLoop (xs : List JValue) : List PropertyData :=
  xs.filterMap (fun r => (mapRecord r).toOption)

/-- Outcome of the one upstream HTTP round trip of
`search_properties_rapidapi`: `requestError` covers
`requests.exceptions.RequestException` — network failures and the
`HTTPError` that `raise_for_status()` raises on a non-2xx status —
`invalidJson` covers `json.JSONDecodeError` from `response.json()`, and
`payload` is a decoded JSON body. -/
inductive UpstreamOutcome where
  | requestError
  | invalidJson
  | payload (j : JValue)

/-- `search_properties_rapidapi` (src/ai_real_estate_agent.py, lines
116-182) as a function of the upstream outcome.  The whole body sits in a
`try` whose handlers catch `RequestException`, `JSONDecodeError` and
`Exception`, each returning the `properties_data` accumulated so far; a
result is `Except.error` only if an exception escapes the function, which
the theorems show never happens.  A truthy non-list `properties` value
either raises `TypeError` (caught by the `except Exception` handler, which
returns `[]`) or iterates values on which every per-record mapping fails,
so it also yields `[]`. -/
def search_properties_rapidapi (o : UpstreamOutcome) : Except PyErr (List PropertyData) :=
  match o with
  | .requestError => .ok []
  | .invalidJson => .ok []
  | .payload j =>
    match pyGetD j "properties" (.arr []) with
    | .error _ => .ok []
    | .ok results =>
      if pyTruthy results = false then .ok []
      else
        match results with
        | .arr xs => .ok (mapLoop xs)
        | _ => .ok []

/-- The payload handling of `PropertyFindingAgent.find_properties`
(src/us_real_estate.py, line 123): `raw_response['data'].get('properties',
[]) if raw_response.get('success') else []`.  The subscription
`raw_response['data']` raises `KeyError` when the key is absent and is not
caught inside `find_properties`. -/
def processFindPropertiesPayload (raw : JValue) : Except PyErr JValue := do
  let succ ← pyGet raw "success"
  if pyTruthy succ then
    let d ← pySubscript raw "data"
    pyGetD d "properties" (.arr [])
  else
    pure (.arr [])

/-- One entry of `REGIONAL_SETTINGS` (src/us_real_estate.py, lines 47-52). -/
structure RegionalEntry where
  tax_rate : ℚ
  price_per_sqft : ℚ
  deriving DecidableEq, Repr

/-- `REGIONAL_SETTINGS` (src/us_real_estate.py, lines 47-52): the static
state-code table. -/
def REGIONAL_SETTINGS : List (String × RegionalEntry) :=
  [("CA", ⟨0.012, 650⟩), ("TX", ⟨0.021, 200⟩), ("FL", ⟨0.019, 300⟩), ("NY", ⟨0.015, 800⟩)]

/-- `PropertyFindingAgent.get_regional_data` (src/us_real_estate.py, lines
77-79): `REGIONAL_SETTINGS.get(state, {})`.  The absent-key default `{}` is
modeled by `none`; `state` may be Python `None` (a valid, always-absent
dict key). -/
def get_regional_data (state : Option String) : Option RegionalEntry :=
  match state with
  | none => none
  | some s => (REGIONAL_SETTINGS.find? (fun e => e.1 == s)).map (fun e => e.2)

/-- Downstream `regional_data.get('price_per_sqft', 0)`
(src/us_real_estate.py, line 133). -/
def pricePerSqftD (r : Option RegionalEntry) : ℚ :=
  match r with
  | some e => e.price_per_sqft
  | none => 0

/-- Downstream `regional_data.get('tax_rate', 0)`
(src/us_real_estate.py, line 140). -/
def taxRateD (r : Option RegionalEntry) : ℚ :=
  match r with
  | some e => e.tax_rate
  | none => 0

/-- Python `==` on the hashable scalar values that can occur as
`lru_cache` keys (numeric cross-type equality included, `bool` being an
`int` subclass).  Containers are unhashable and are rejected before any
cache lookup, so their equality is unreachable here and mapped to
`false`. -/
def jScalarEq : JValue → JValue → Bool
  | .null, .null => true
  | .bool a, .bool b => a == b
  | .bool a, .int n => decide ((if a then 1 else 0 : Int) = n)
  | .int n, .bool a => decide (n = (if a then 1 else 0 : Int))
  | .bool a, .float q => decide ((if a then 1 else 0 : ℚ) = q)
  | .float q, .bool a => decide (q = (if a then 1 else 0 : ℚ))
  | .int a, .int b => a == b
  | .int a, .float q => decide ((a : ℚ) = q)
  | .float q, .int a => decide (q = (a : ℚ))
  | .float a, .float b => decide (a = b)
  | .str a, .str b => a == b
  | _, _ => false

/-- One call through a `functools.lru_cache(maxsize)` wrapper, for a
hashable key: on a hit the cached value is returned and its entry moves to
the most-recently-used position; on a miss the function is invoked, the
result is inserted most-recently-used and, past `maxsize` entries, the
least-recently-used entry is discarded.  Result: (value, new cache,
hit?). -/
def lruCall {K V : Type} (eqk : K → K → Bool) (maxsize : Nat) (f : K → V)
    (entries : List (K × V)) (k : K) : V × List (K × V) × Bool :=
  match entries.find? (fun e => eqk e.1 k) with
  | some e => (e.2, (k, e.2) :: entries.filter (fun x => !(eqk x.1 k)), true)
  | none => (f k, ((k, f k) :: entries).take maxsize, false)

/-- A sequence of calls through the same `lru_cache` wrapper, threading the
cache state. -/
def runCalls {K V : Type} (eqk : K → K → Bool) (maxsize : Nat) (f : K → V)
    (ks : List K) (entries : List (K × V)) : List (K × V) :=
  ks.foldl (fun es k => (lruCall eqk maxsize f es k).2.1) entries

/-- `PropertyFindingAgent.cached_search` (src/us_real_estate.py, lines
65-68): the method is decorated with `@lru_cache(maxsize=100)`.  A call
first hashes its arguments; the `params` argument the call sites pass is a
`dict`, which is unhashable, so every such call raises `TypeError` before
the cache or the upstream `firecrawl.extract` is consulted.  For a
hashable key the wrapper behaves as `lruCall` with `maxsize = 100`. -/
def cachedSearchCall (extract : JValue → JValue) (cache : List (JValue × JValue))
    (params : JValue) : Except PyErr (JValue × List (JValue × JValue)) :=
  if hashableTop params then
    let r := lruCall jScalarEq 100 extract cache params
    .ok (r.1, r.2.1)
  else
    .error .typeError

/-- Groups of three digits (input reversed) for Python's `","` format
option. -/
def group3 : List Char → List Char
  | a :: b :: c :: d :: rest => a :: b :: c :: ',' :: group3 (d :: rest)
  | l => l

/-- Python `f"{n:,.0f}"` for the integral (here `Nat`-valued) prices the UI
produces: decimal digits in groups of three separated by commas. -/
def commaFmt (n : Nat) : String :=
  String.mk ((group3 (natRepr n).data.reverse).reverse)

/-- The conditional bedrooms line of the search prompt
(src/us_real_estate.py, line 106): `{"- Bedrooms: " + str(bedrooms) if
bedrooms else ""}` — `None` and `0` are falsy. -/
def bedroomsLine : Option Int → String
  | some b => if b == 0 then "" else "- Bedrooms: " ++ intRepr b
  | none => ""

/-- The `search_prompt` f-string of `PropertyFindingAgent.find_properties`
(src/us_real_estate.py, lines 101-113).  String literals are split so that
each claim-relevant fragment is a contiguous run of atoms. -/
def us_search_prompt (location : String) (max_price : Nat) (property_type : String)
    (bedrooms : Option Int) : String :=
  "\n        Extract residential properties matching:\n        " ++
  ("- Location: " ++ location) ++
  ("\n        " ++ ("- Max Price: $" ++ commaFmt max_price)) ++
  ("\n        " ++ ("- Property Type: " ++ property_type)) ++
  ("\n        " ++ bedroomsLine bedrooms) ++
  ("\n        \n        Requirements:\n        - Include active listings only" ++
   "\n        - Minimum 3 properties, maximum 10" ++
   "\n        - Include full address and key details" ++
   "\n        - Exclude foreclosures and auctions\n        ")

/-- The analysis-prompt builder of `PropertyFindingAgent.find_properties`
in src/unnamed/part_000 (lines 102-147), as a function of the rendered
interpolations: `propertiesStr` stands for `str(properties)` and
`maxPriceStr` for `str(max_price)`.  String literals are split so that each
claim-relevant fragment is a contiguous run of atoms. -/
def part000_analysis_prompt (propertiesStr property_category property_type
    maxPriceStr : String) : String :=
  "As a real estate expert, analyze these properties and market trends:" ++
  ("\n\n            Properties Found in json format:\n            " ++ propertiesStr) ++
  ("\n\n            **IMPORTANT INSTRUCTIONS:**" ++
   "\n            1. ONLY analyze properties from the above JSON data that match the user\x27s requirements:" ++
   "\n               ") ++
  ("- Property Category: " ++ property_category) ++
  ("\n               " ++ ("- Property Type: " ++ property_type)) ++
  ("\n               " ++ ("- Maximum Price: " ++ (maxPriceStr ++ " crores"))) ++
  ("\n            2. DO NOT create new categories or property types" ++
   "\n            3. From the matching properties, ") ++
  ("select 5-6 properties with prices closest to " ++ (maxPriceStr ++ " crores")) ++
  ("\n\n            Please provide your analysis in this format:" ++
   "\n            \n            🏠 SELECTED PROPERTIES" ++
   "\n            • List only 5-6 best matching properties with prices closest to ") ++
  (maxPriceStr ++ " crores") ++
  ("\n            • For each property include:" ++
   "\n              - Name and Location" ++
   "\n              - Price (with value analysis)" ++
   "\n              - Key Features" ++
   "\n              - Pros and Cons" ++
   "\n\n            💰 BEST VALUE ANALYSIS" ++
   "\n            • Compare the selected properties based on:" ++
   "\n              - Price per sq ft" ++
   "\n              - Location advantage" ++
   "\n              - Amenities offered" ++
   "\n\n            📍 LOCATION INSIGHTS" ++
   "\n            • Specific advantages of the areas where selected properties are located" ++
   "\n\n            💡 RECOMMENDATIONS" ++
   "\n            • Top 3 properties from the selection with reasoning" ++
   "\n            • Investment potential" ++
   "\n            • Points to consider before purchase" ++
   "\n\n            🤝 NEGOTIATION TIPS" ++
   "\n            • Property-specific negotiation strategies" ++
   "\n\n            Format your response in a clear, structured way using the above sections.\n            ")

/-- Substring containment: `sub` occurs contiguously in `s`. -/
def containsSub (s sub : String) : Prop :=
  ∃ pre post : String, s = pre ++ (sub ++ post)

/-- Placeholder for `PropertiesResponse.model_json_schema()`
(src/us_real_estate.py, line 119): the call returns a JSON-schema dict;
none of its contents is observed by any modeled claim, only its presence
inside the `params` dict. -/
def propertiesSchemaDict : JValue :=
  .obj [("title", .str "PropertiesResponse")]

/-- The analysis prompt of `PropertyFindingAgent.find_properties`
(src/us_real_estate.py, lines 126-168), abstracted to its interpolations.
No modeled claim mentions this text; moreover its source line 140 embeds
`{regional_data.get('tax_rate', 0)%}`, which is not a well-formed f-string
interpolation, so the literal text has no defined rendering.  The modeled
code path that the claims exercise raises before this prompt is built. -/
def usAnalysisPromptText (regional : Option RegionalEntry) (properties : JValue) : String :=
  "As a U.S. real estate expert, analyze these properties:\n\nProperties:\n" ++
  pyStrOf properties ++
  "\n\nPrice vs local median ($" ++ intRepr (pricePerSqftD regional).num ++ "/sqft)" ++
  "\nTax estimates (" ++ intRepr (taxRateD regional).num ++ "/" ++
  natRepr (taxRateD regional).den ++ " rate)"

/-- `PropertyFindingAgent.find_properties` (src/us_real_estate.py, lines
81-171) up to its return value: location parsing, regional lookup, URL
templating, prompt construction, the `cached_search` call, payload
handling and the final `agent.run(...)` (the external LLM call is the
oracle `agentRun`; the external `firecrawl.extract` is the oracle
`extract`; `cache` is the `lru_cache` state of the agent). -/
def find_properties (cache : List (JValue × JValue)) (extract : JValue → JValue)
    (agentRun : String → String) (location : String) (max_price : Nat)
    (property_type : String) (bedrooms : Option Int) : Except PyErr String := do
  let cs ← parse_location location
  let city := cs.1
  let state := cs.2
  let regional := get_regional_data state
  let formatted_location :=
    match state with
    | some st => pyReplaceChar ' ' '-' (pyLower city) ++ "-" ++ pyLower st
    | none => pyReplaceChar ' ' '-' (pyLower city)
  let stateStr := match state with | some st => st | none => "None"
  let urls : List String :=
    ["https://www.zillow.com/homes/" ++ formatted_location ++ "_rb/",
     "https://www.realtor.com/realestateandhomes-search/" ++ formatted_location,
     "https://www.redfin.com/city/34701/" ++ stateStr ++ "/" ++ formatted_location,
     "https://www.trulia.com/" ++ formatted_location]
  let prompt := us_search_prompt location max_price property_type bedrooms
  let params : JValue :=
    .obj [("urls", .arr (urls.map JValue.str)),
          ("params", .obj [("prompt", .str prompt), ("schema", propertiesSchemaDict)])]
  let raw ← cachedSearchCall extract cache params
  let properties ← processFindPropertiesPayload raw.1
  pure (agentRun (usAnalysisPromptText regional properties))

/-- A raw record whose `list_price` is the string `"350,000+"` (spec §8
scenario). -/
def rec350 : JValue :=
  .obj [("list_price", .str "350,000+")]

/-- A well-formed raw record with full address and description blocks. -/
def recG1 : JValue :=
  .obj [("location", .obj [("address", .obj
          [("line", .str "1 Main St"), ("city", .str "Austin"),
           ("state_code", .str "TX"), ("postal_code", .str "78701")])]),
        ("list_price", .int 420000),
        ("description", .obj
          [("type", .str "condo"), ("beds", .int 2), ("sqft", .int 900)])]

/-- A raw record with no `beds` (missing-bedroom case of the spec §8
scenario). -/
def recG2 : JValue :=
  .obj [("list_price", .int 300000),
        ("description", .obj [("type", .str "condo")])]

/-- A second raw record with no `beds`. -/
def recG3 : JValue :=
  .obj [("list_price", .int 440000)]

/-- A raw record whose `location` key holds `None`: `None.get("address",
{})` raises `AttributeError`, so its per-record mapping fails. -/
def recBadLoc : JValue :=
  .obj [("location", .null)]

theorem string_data_append (a b : String) : (a ++ b).data = a.data ++ b.data := rfl

theorem string_eq_of_data {a b : String} (h : a.data = b.data) : a = b := by
  cases a; cases b; exact congrArg String.mk h

theorem splitComma_of_no_comma (xs : List Char) (h : ',' ∉ xs) : splitComma xs = [xs] := by
  induction xs with
  | nil => rfl
  | cons c cs ih =>
    have hc : c ≠ ',' := by
      intro he; exact h (he ▸ List.mem_cons_self c cs)
    have hcs : ',' ∉ cs := fun hm => h (List.mem_cons_of_mem c hm)
    simp [splitComma, hc, ih hcs]

theorem splitComma_append (xs ys : List Char) (h : ',' ∉ xs) :
    splitComma (xs ++ ',' :: ys) = xs :: splitComma ys := by
  induction xs with
  | nil => simp [splitComma]
  | cons c cs ih =>
    have hc : c ≠ ',' := by
      intro he; exact h (he ▸ List.mem_cons_self c cs)
    have hcs : ',' ∉ cs := fun hm => h (List.mem_cons_of_mem c hm)
    simp only [List.cons_append, splitComma, if_neg hc, List.append_eq]
    rw [ih hcs]

/-- C3 counterexample: `parse_location` applied to a string with two commas
(`"Austin, TX, USA"`) raises `ValueError` (the two-element tuple unpacking
fails on a three-part split), so `parse_location` does not return on every
input string. -/
theorem parse_location_two_commas_raises :
    parse_location "Austin, TX, USA" = .error .valueError := rfl

/-- C3 amended: for every input with at most one comma, `parse_location`
returns without raising: with no comma it returns `(the string, None)`; with
exactly one comma it returns the two stripped parts, the second
upper-cased.  (With two or more commas it raises `ValueError`, see the
counterexample.) -/
theorem parse_location_amended :
    (∀ s : String, ',' ∉ s.data → parse_location s = .ok (s, none)) ∧
    (∀ a b : String, ',' ∉ a.data → ',' ∉ b.data →
      parse_location (a ++ "," ++ b) =
        .ok (pyStrip a, some (pyUpper (pyStrip b)))) := by
  constructor
  · intro s hs
    simp [parse_location, hs]
  · intro a b ha hb
    have hdata : (a ++ "," ++ b).data = a.data ++ ',' :: b.data := by
      simp [string_data_append]
    have hmem : ',' ∈ (a ++ "," ++ b).data := by
      rw [hdata]; exact List.mem_append_right _ (List.mem_cons_self _ _)
    unfold parse_location
    rw [if_pos hmem, hdata, splitComma_append a.data b.data ha,
      splitComma_of_no_comma b.data hb]
    rfl

/-- Witness for `parse_location_amended`: both cases evaluated at the spec's
own examples, `"Austin"` and `"Austin, TX"` (written as
`"Austin" ++ "," ++ " TX"`). -/
theorem parse_location_amended_witness :
    parse_location "Austin" = .ok ("Austin", none) ∧
    parse_location ("Austin" ++ "," ++ " TX") =
      .ok (pyStrip "Austin", some (pyUpper (pyStrip " TX"))) :=
  ⟨parse_location_amended.1 "Austin" (by decide),
   parse_location_amended.2 "Austin" " TX" (by decide) (by decide)⟩

theorem pyFloatConv_error_cases (v : JValue) (e : PyErr) (h : pyFloatConv v = .error e) :
    e = .valueError ∨ e = .typeError := by
  cases v with
  | null => simp [pyFloatConv] at h; exact Or.inr h.symm
  | bool b => simp [pyFloatConv] at h
  | int n => simp [pyFloatConv] at h
  | float q => simp [pyFloatConv] at h
  | str s =>
    cases hp : pyParseFloat s with
    | some q => simp [pyFloatConv, hp] at h
    | none => simp [pyFloatConv, hp] at h; exact Or.inl h.symm
  | arr xs => simp [pyFloatConv] at h; exact Or.inr h.symm
  | obj fs => simp [pyFloatConv] at h; exact Or.inr h.symm

/-- C4 confirmed: for every input value `v` (string, `None`, number, bool or
container) and every default `d`, `safe_float` completes without raising and
yields either the float conversion of the cleaned value or the supplied
default. -/
theorem safe_float_never_raises_cleaned_or_default (v d : JValue) :
    ∃ r, safe_float v d = .ok r ∧
      (r = d ∨ ∃ q : ℚ, r = .float q ∧ pyFloatConv (cleanVal v) = .ok q) := by
  unfold safe_float
  cases hc : pyFloatConv (cleanVal v) with
  | ok q => exact ⟨.float q, rfl, Or.inr ⟨q, rfl, rfl⟩⟩
  | error e =>
    rcases pyFloatConv_error_cases (cleanVal v) e hc with he | he <;> subst he
    · exact ⟨d, rfl, Or.inl rfl⟩
    · exact ⟨d, rfl, Or.inl rfl⟩

theorem ok_bind {ε α β : Type} (a : α) (f : α → Except ε β) :
    (Except.ok a >>= f : Except ε β) = f a := rfl

theorem error_bind {ε α β : Type} (e : ε) (f : α → Except ε β) :
    ((Except.error e : Except ε α) >>= f) = .error e := rfl

theorem pure_eq_ok {ε α : Type} (a : α) : (pure a : Except ε α) = .ok a := rfl

theorem search_properties_rapidapi_total (o : UpstreamOutcome) :
    ∃ l, search_properties_rapidapi o = .ok l := by
  cases o with
  | requestError => exact ⟨[], rfl⟩
  | invalidJson => exact ⟨[], rfl⟩
  | payload j =>
    cases hg : pyGetD j "properties" (.arr []) with
    | error e => exact ⟨[], by simp [search_properties_rapidapi, hg]⟩
    | ok results =>
      by_cases ht : pyTruthy results = false
      · exact ⟨[], by simp [search_properties_rapidapi, hg, ht]⟩
      · cases results with
        | arr xs => exact ⟨mapLoop xs, by simp [search_properties_rapidapi, hg, ht]⟩
        | null => exact ⟨[], by simp [search_properties_rapidapi, hg, ht]⟩
        | bool b => exact ⟨[], by simp [search_properties_rapidapi, hg, ht]⟩
        | int n => exact ⟨[], by simp [search_properties_rapidapi, hg, ht]⟩
        | float q => exact ⟨[], by simp [search_properties_rapidapi, hg, ht]⟩
        | str s => exact ⟨[], by simp [search_properties_rapidapi, hg, ht]⟩
        | obj fields => exact ⟨[], by simp [search_properties_rapidapi, hg, ht]⟩

/-- C2 counterexample: a raw payload whose `success` is truthy but whose
`data` key is absent makes `find_properties`' payload handling raise
`KeyError` (the subscription `raw_response['data']` is not guarded), so the
adapter boundary does raise for a payload with an expected key missing. -/
theorem find_properties_payload_missing_data_key_raises :
    processFindPropertiesPayload (.obj [("success", .bool true)]) = .error .keyError := rfl

/-- C2 amended: upstream failures of `search_properties_rapidapi` (network
error or non-2xx via `RequestException`, malformed JSON) yield the empty
list, a payload without a `properties` key yields the empty list, and no
outcome makes the adapter raise; `find_properties`' payload handling yields
the empty list when `success` is absent or falsy, and also when `data` is a
dict without a `properties` key — but a truthy `success` with the `data`
key absent raises `KeyError` (see the counterexample), so the original
blanket "never raises for missing expected keys" does not hold there. -/
theorem adapter_empty_on_failure_amended :
    (∀ o : UpstreamOutcome, ∃ l, search_properties_rapidapi o = .ok l) ∧
    (search_properties_rapidapi .requestError = .ok [] ∧
     search_properties_rapidapi .invalidJson = .ok []) ∧
    (∀ fs : List (String × JValue), lookupField fs "properties" = none →
      search_properties_rapidapi (.payload (.obj fs)) = .ok []) ∧
    (∀ fs : List (String × JValue),
      (lookupField fs "success" = none ∨
        ∃ v, lookupField fs "success" = some v ∧ pyTruthy v = false) →
      processFindPropertiesPayload (.obj fs) = .ok (.arr [])) ∧
    (∀ (fs ds : List (String × JValue)) (v : JValue),
      lookupField fs "success" = some v → pyTruthy v = true →
      lookupField fs "data" = some (.obj ds) → lookupField ds "properties" = none →
      processFindPropertiesPayload (.obj fs) = .ok (.arr [])) := by
  refine ⟨search_properties_rapidapi_total, ⟨rfl, rfl⟩, ?_, ?_, ?_⟩
  · intro fs h
    simp [search_properties_rapidapi, pyGetD, h, pyTruthy]
  · intro fs h
    rcases h with h | ⟨v, hv, hf⟩
    · simp [processFindPropertiesPayload, pyGet, pyGetD, h, pyTruthy, ok_bind, pure_eq_ok]
    · simp [processFindPropertiesPayload, pyGet, pyGetD, hv, hf, ok_bind, pure_eq_ok]
  · intro fs ds v hv ht hd hp
    simp [processFindPropertiesPayload, pyGet, pyGetD, pySubscript, hv, ht, hd, hp, ok_bind, pure_eq_ok]

/-- Witness for `adapter_empty_on_failure_amended`: each hypothetical
conjunct applied at a concrete input. -/
theorem adapter_empty_on_failure_amended_witness :
    (∃ l, search_properties_rapidapi .requestError = .ok l) ∧
    search_properties_rapidapi (.payload (.obj [("status", .str "ok")])) = .ok [] ∧
    processFindPropertiesPayload (.obj [("success", .bool false)]) = .ok (.arr []) ∧
    processFindPropertiesPayload
      (.obj [("success", .bool true), ("data", .obj [("other", .int 1)])]) =
        .ok (.arr []) :=
  ⟨adapter_empty_on_failure_amended.1 .requestError,
   adapter_empty_on_failure_amended.2.2.1 [("status", .str "ok")] rfl,
   adapter_empty_on_failure_amended.2.2.2.1 [("success", .bool false)]
     (Or.inr ⟨.bool false, rfl, rfl⟩),
   adapter_empty_on_failure_amended.2.2.2.2 [("success", .bool true), ("data", .obj [("other", .int 1)])]
     [("other", .int 1)] (.bool true) rfl rfl rfl rfl⟩

/-- C5 counterexample: a raw record whose price field is the string
`"350,000+"` does not yield a canonical record with price `350000`; its
mapping fails outright (the value reaches the pydantic `price: float` field
unrouted through `safe_float`, and `"350,000+"` is not float syntax), so
the record is dropped and the mapper output for this single-record batch is
empty. -/
theorem mapper_price_350000_plus_dropped :
    mapLoop [rec350] = [] ∧ (mapRecord rec350).toOption.isSome = false :=
  ⟨rfl, rfl⟩

/-- C5 amended: in the 4-record batch of the spec §8 scenario, the record
with price `"350,000+"` fails per-record mapping and is skipped — the
mapper yields the other 3 records, and no produced record has price
`350000`. -/
theorem mapper_price_350000_plus_amended :
    (mapLoop [recG1, rec350, recG2, recG3]).length = 3 ∧
    (mapLoop [recG1, rec350, recG2, recG3]).all
      (fun p => !(decide (p.price = 350000))) = true := by
  constructor <;> decide

theorem mapLoop_length_of_all_ok (l : List JValue)
    (h : ∀ r ∈ l, (mapRecord r).toOption.isSome = true) :
    (mapLoop l).length = l.length := by
  induction l with
  | nil => rfl
  | cons r t ih =>
    have hr := h r (List.mem_cons_self r t)
    cases hm : (mapRecord r).toOption with
    | none => rw [hm] at hr; cases hr
    | some p =>
      have ht := ih (fun x hx => h x (List.mem_cons_of_mem r hx))
      simp only [mapLoop, List.filterMap_cons, hm, List.length_cons] at ht ⊢
      rw [ht]

/-- C6 confirmed: for every batch with exactly one malformed record (its
per-record mapping raises) at any position, the mapper yields exactly N-1
`PropertyData` records — the failing record is skipped and the rest are
still processed. -/
theorem mapper_skips_single_malformed (l₁ l₂ : List JValue) (bad : JValue)
    (h₁ : ∀ r ∈ l₁, (mapRecord r).toOption.isSome = true)
    (h₂ : ∀ r ∈ l₂, (mapRecord r).toOption.isSome = true)
    (hbad : (mapRecord bad).toOption.isSome = false) :
    (mapLoop (l₁ ++ bad :: l₂)).length = (l₁ ++ bad :: l₂).length - 1 := by
  have hb : (mapRecord bad).toOption = none := by
    cases hm : (mapRecord bad).toOption with
    | none => rfl
    | some p => rw [hm] at hbad; cases hbad
  have e1 := mapLoop_length_of_all_ok l₁ h₁
  have e2 := mapLoop_length_of_all_ok l₂ h₂
  simp only [mapLoop, List.filterMap_append, List.filterMap_cons, hb,
    List.length_append, List.length_cons] at e1 e2 ⊢
  rw [e1, e2]
  omega

/-- Witness for `mapper_skips_single_malformed`: a 3-record batch whose
middle record (`location: None`) fails mapping yields exactly 2 records. -/
theorem mapper_skips_single_malformed_witness :
    (mapLoop ([recG1] ++ recBadLoc :: [recG2])).length =
      ([recG1] ++ recBadLoc :: [recG2]).length - 1 :=
  mapper_skips_single_malformed [recG1] [recG2] recBadLoc
    (by decide) (by decide) (by decide)

/-- C8 counterexample: mapping a raw record with no address block, no
description block and no price yields a canonical record whose optional
fields `square_feet`, `bedrooms` and `bathrooms` are `None` — absence, not
an explicit "unknown" marker — while only the string fields carry `"N/A"`;
downstream formatting (`p.bedrooms or 'N/A'`, `prop.bedrooms or '-'`) does
branch on that absence. -/
theorem mapRecord_missing_optional_fields_none :
    mapRecord (.obj []) = .ok
      { building_name := "N/A", property_type := "N/A", location_address := ", ,  ",
        price := 0, description := "N/A hab, N/A baños, N/A sqft",
        square_feet := none, bedrooms := none, bathrooms := none } := rfl

/-- C8 amended: for every raw record with no `location`, `description` or
`list_price` keys, the mapper produces a record whose string fields default
to the `"N/A"` marker and whose description text embeds `"N/A"` markers,
but whose optional numeric fields (`square_feet`, `bedrooms`, `bathrooms`)
are left as `None` (absence); downstream formatting therefore does branch
on presence. -/
theorem optional_fields_default_amended (fs : List (String × JValue))
    (h₁ : lookupField fs "location" = none)
    (h₂ : lookupField fs "description" = none)
    (h₃ : lookupField fs "list_price" = none) :
    mapRecord (.obj fs) = .ok
      { building_name := "N/A", property_type := "N/A", location_address := ", ,  ",
        price := 0, description := "N/A hab, N/A baños, N/A sqft",
        square_feet := none, bedrooms := none, bathrooms := none } := by
  have e1 : pyGetD (.obj fs) "location" (.obj []) = .ok (.obj []) := by
    simp [pyGetD, h₁]
  have e2 : pyGetD (.obj fs) "description" (.obj []) = .ok (.obj []) := by
    simp [pyGetD, h₂]
  have e3 : pyGet (.obj fs) "list_price" = .ok .null := by
    simp [pyGet, pyGetD, h₃]
  unfold mapRecord
  simp only [e1, e2, e3]
  rfl

/-- Witness for `optional_fields_default_amended`: a record holding only an
unrelated key. -/
theorem optional_fields_default_amended_witness :
    mapRecord (.obj [("permalink", .str "x")]) = .ok
      { building_name := "N/A", property_type := "N/A", location_address := ", ,  ",
        price := 0, description := "N/A hab, N/A baños, N/A sqft",
        square_feet := none, bedrooms := none, bathrooms := none } :=
  optional_fields_default_amended [("permalink", .str "x")] rfl rfl rfl

theorem find_none_of_fresh_keys (l : List (Nat × Nat)) (k : Nat)
    (h : ∀ e ∈ l, e.1 ≠ k) : l.find? (fun e => e.1 == k) = none := by
  induction l with
  | nil => rfl
  | cons a t ih =>
    have ha : (a.1 == k) = false := beq_eq_false_iff_ne.mpr (h a (List.mem_cons_self a t))
    simp only [List.find?_cons, ha]
    exact ih (fun e he => h e (List.mem_cons_of_mem a he))

theorem find?_map_pair (l : List Nat) (f : Nat → Nat) (k : Nat) (h : k ∈ l) :
    ((l.map (fun x => (x, f x))).find? (fun e => e.1 == k)) = some (k, f k) := by
  induction l with
  | nil => cases h
  | cons a t ih =>
    by_cases hak : a = k
    · subst hak; simp [List.find?_cons]
    · have ha : (a == k) = false := beq_eq_false_iff_ne.mpr hak
      rcases List.mem_cons.mp h with h' | h'
      · exact absurd h'.symm hak
      · simp only [List.map_cons, List.find?_cons, ha]
        exact ih h'

theorem runCalls_of_fresh (f : Nat → Nat) (ks : List Nat) :
    ∀ es : List (Nat × Nat), ks.Nodup → (∀ k ∈ ks, ∀ e ∈ es, e.1 ≠ k) →
      es.length + ks.length ≤ 100 →
      runCalls (fun a b => a == b) 100 f ks es =
        (ks.map (fun x => (x, f x))).reverse ++ es := by
  induction ks with
  | nil => intro es _ _ _; simp [runCalls]
  | cons k t ih =>
    intro es hnd hfresh hlen
    have hk : es.find? (fun e => e.1 == k) = none :=
      find_none_of_fresh_keys es k (fun e he => hfresh k (List.mem_cons_self k t) e he)
    have hstep : (lruCall (fun a b => a == b) 100 f es k).2.1 = (k, f k) :: es := by
      simp only [lruCall, hk]
      have hl : ((k, f k) :: es).length ≤ 100 := by
        simp only [List.length_cons, List.length_cons] at hlen ⊢; omega
      exact List.take_of_length_le hl
    have hnd' : t.Nodup := (List.nodup_cons.mp hnd).2
    have hkt : k ∉ t := (List.nodup_cons.mp hnd).1
    have hfresh' : ∀ x ∈ t, ∀ e ∈ (k, f k) :: es, e.1 ≠ x := by
      intro x hx e he
      rcases List.mem_cons.mp he with he' | he'
      · subst he'
        intro hc
        have hkx : k = x := hc
        subst hkx
        exact hkt hx
      · exact hfresh x (List.mem_cons_of_mem k hx) e he'
    have hlen' : ((k, f k) :: es).length + t.length ≤ 100 := by
      simp only [List.length_cons] at hlen ⊢; omega
    have hrun : runCalls (fun a b => a == b) 100 f (k :: t) es =
        runCalls (fun a b => a == b) 100 f t ((lruCall (fun a b => a == b) 100 f es k).2.1) := rfl
    rw [hrun, hstep, ih ((k, f k) :: es) hnd' hfresh' hlen']
    simp [List.map_cons, List.reverse_cons, List.append_assoc]

set_option maxRecDepth 8000 in
/-- C7 counterexample: `cached_search` is decorated with
`lru_cache(maxsize=100)`, not an unbounded cache: after caching 101
distinct parameter keys the first key's entry has been evicted, so a later
identical query for key `0` misses (the upstream function is invoked
again); the hit flag of that call is `false`. -/
theorem lru_cache_evicts_at_101st :
    (lruCall (fun a b : Nat => a == b) 100 (fun n => n + 1)
      (runCalls (fun a b : Nat => a == b) 100 (fun n => n + 1) (List.range 101) []) 0).2.2
      = false := by decide

/-- C7 amended: the `cached_search` cache is a `functools.lru_cache` bounded
at `maxsize=100`: an entry inserted earlier is still present and is
returned for a later identical query as long as at most 100 distinct
parameter sets (including its own) have been cached — eviction begins only
past the 101st distinct set.  (Moreover no entry is ever writable in
practice: the actual call sites pass an unhashable dict, see the C1
theorem.) -/
theorem lru_cache_retention_amended (f : Nat → Nat) (ks : List Nat)
    (hnd : ks.Nodup) (hlen : ks.length ≤ 100) :
    ∀ k ∈ ks,
      (lruCall (fun a b => a == b) 100 f
        (runCalls (fun a b => a == b) 100 f ks []) k).1 = f k ∧
      (lruCall (fun a b => a == b) 100 f
        (runCalls (fun a b => a == b) 100 f ks []) k).2.2 = true := by
  intro k hk
  have hr := runCalls_of_fresh f ks [] hnd (by intro x _ e he; cases he)
    (by simpa using hlen)
  rw [hr]
  have hfind : (((ks.map (fun x => (x, f x))).reverse).find?
      (fun e => e.1 == k)) = some (k, f k) := by
    rw [← List.map_reverse]
    exact find?_map_pair ks.reverse f k (List.mem_reverse.mpr hk)
  refine ⟨?_, ?_⟩ <;> simp [lruCall, hfind]

/-- Witness for `lru_cache_retention_amended`: two distinct keys cached,
the first is still a hit with its original value. -/
theorem lru_cache_retention_amended_witness :
    (lruCall (fun a b : Nat => a == b) 100 (fun n => n + 1)
      (runCalls (fun a b : Nat => a == b) 100 (fun n => n + 1) [5, 7] []) 5).1 = 5 + 1 ∧
    (lruCall (fun a b : Nat => a == b) 100 (fun n => n + 1)
      (runCalls (fun a b : Nat => a == b) 100 (fun n => n + 1) [5, 7] []) 5).2.2 = true :=
  lru_cache_retention_amended (fun n => n + 1) [5, 7] (by decide) (by decide) 5 (by decide)

theorem containsSub_left (s t sub : String) (h : containsSub s sub) :
    containsSub (s ++ t) sub := by
  obtain ⟨pre, post, he⟩ := h
  refine ⟨pre, post ++ t, ?_⟩
  rw [he]
  apply string_eq_of_data
  simp [string_data_append, List.append_assoc]

theorem containsSub_right (s t sub : String) (h : containsSub t sub) :
    containsSub (s ++ t) sub := by
  obtain ⟨pre, post, he⟩ := h
  refine ⟨s ++ pre, post, ?_⟩
  rw [he]
  apply string_eq_of_data
  simp [string_data_append, List.append_assoc]

theorem containsSub_self_right (t sub : String) : containsSub (t ++ sub) sub := by
  refine ⟨t, "", ?_⟩
  apply string_eq_of_data
  simp [string_data_append]

/-- C9 confirmed: for every normalized property list and filter set, the
part_000 analysis instruction restates the hard constraints — it contains
the property category, the property type and the maximum price — and
requests 5-6 highlighted properties with prices closest to the maximum
price; and the us_real_estate search prompt contains the formatted maximum
price (`$` with thousands separators) and the property type. -/
theorem prompts_restate_constraints :
    (∀ propertiesStr property_category ptype maxPriceStr : String,
      containsSub (part000_analysis_prompt propertiesStr property_category ptype maxPriceStr)
        ("- Property Category: " ++ property_category) ∧
      containsSub (part000_analysis_prompt propertiesStr property_category ptype maxPriceStr)
        ("- Property Type: " ++ ptype) ∧
      containsSub (part000_analysis_prompt propertiesStr property_category ptype maxPriceStr)
        ("- Maximum Price: " ++ (maxPriceStr ++ " crores")) ∧
      containsSub (part000_analysis_prompt propertiesStr property_category ptype maxPriceStr)
        ("select 5-6 properties with prices closest to " ++ (maxPriceStr ++ " crores"))) ∧
    (∀ (loc ptype : String) (max_price : Nat) (bedrooms : Option Int),
      containsSub (us_search_prompt loc max_price ptype bedrooms)
        ("- Max Price: $" ++ commaFmt max_price) ∧
      containsSub (us_search_prompt loc max_price ptype bedrooms)
        ("- Property Type: " ++ ptype)) := by
  constructor
  · intro ps cat pt mp
    refine ⟨?_, ?_, ?_, ?_⟩
    · unfold part000_analysis_prompt
      exact containsSub_left _ _ _ (containsSub_left _ _ _ (containsSub_left _ _ _
        (containsSub_left _ _ _ (containsSub_left _ _ _ (containsSub_left _ _ _
        (containsSub_left _ _ _ (containsSub_self_right _ _)))))))
    · unfold part000_analysis_prompt
      exact containsSub_left _ _ _ (containsSub_left _ _ _ (containsSub_left _ _ _
        (containsSub_left _ _ _ (containsSub_left _ _ _ (containsSub_left _ _ _
        (containsSub_right _ _ _ (containsSub_self_right _ _)))))))
    · unfold part000_analysis_prompt
      exact containsSub_left _ _ _ (containsSub_left _ _ _ (containsSub_left _ _ _
        (containsSub_left _ _ _ (containsSub_left _ _ _
        (containsSub_right _ _ _ (containsSub_self_right _ _))))))
    · unfold part000_analysis_prompt
      exact containsSub_left _ _ _ (containsSub_left _ _ _ (containsSub_left _ _ _
        (containsSub_self_right _ _)))
  · intro loc pt mp bedrooms
    constructor
    · unfold us_search_prompt
      exact containsSub_left _ _ _ (containsSub_left _ _ _ (containsSub_left _ _ _
        (containsSub_right _ _ _ (containsSub_self_right _ _))))
    · unfold us_search_prompt
      exact containsSub_left _ _ _ (containsSub_left _ _ _
        (containsSub_right _ _ _ (containsSub_self_right _ _)))

/-- C10 confirmed: `get_regional_data` is total and never raises: each of
the four table states returns its fixed tax-rate / price-per-sqft pair, and
every other argument — including `None`, the state `parse_location`
produces when there is no comma — returns the empty dict (`none`), on which
the downstream prompt accessors fall back to 0. -/
theorem get_regional_data_table_and_fallback :
    get_regional_data (some "CA") = some ⟨0.012, 650⟩ ∧
    get_regional_data (some "TX") = some ⟨0.021, 200⟩ ∧
    get_regional_data (some "FL") = some ⟨0.019, 300⟩ ∧
    get_regional_data (some "NY") = some ⟨0.015, 800⟩ ∧
    get_regional_data none = none ∧
    (∀ s : String, s ≠ "CA" → s ≠ "TX" → s ≠ "FL" → s ≠ "NY" →
      get_regional_data (some s) = none ∧
      pricePerSqftD (get_regional_data (some s)) = 0 ∧
      taxRateD (get_regional_data (some s)) = 0) := by
  refine ⟨rfl, rfl, rfl, rfl, rfl, ?_⟩
  intro s h1 h2 h3 h4
  have c1 : ("CA" == s) = false := beq_eq_false_iff_ne.mpr (Ne.symm h1)
  have c2 : ("TX" == s) = false := beq_eq_false_iff_ne.mpr (Ne.symm h2)
  have c3 : ("FL" == s) = false := beq_eq_false_iff_ne.mpr (Ne.symm h3)
  have c4 : ("NY" == s) = false := beq_eq_false_iff_ne.mpr (Ne.symm h4)
  have e : get_regional_data (some s) = none := by
    simp [get_regional_data, REGIONAL_SETTINGS, List.find?_cons, c1, c2, c3, c4]
  exact ⟨e, by rw [e]; rfl, by rw [e]; rfl⟩

/-- Witness for `get_regional_data_table_and_fallback`: the off-table state
`"ZZ"` yields the empty dict and zero fallbacks. -/
theorem get_regional_data_fallback_witness :
    get_regional_data (some "ZZ") = none ∧
    pricePerSqftD (get_regional_data (some "ZZ")) = 0 ∧
    taxRateD (get_regional_data (some "ZZ")) = 0 :=
  get_regional_data_table_and_fallback.2.2.2.2.2 "ZZ"
    (by decide) (by decide) (by decide) (by decide)

/-- C1 (code bug): every invocation of `find_properties` — first or
repeated, for any cache state and any upstream behavior — raises
`TypeError` at the `cached_search` call, because the `lru_cache`-wrapped
method is passed a `dict` argument, which is unhashable.  The memoized call
never completes, never caches, and never reaches the upstream extraction,
contradicting the claimed memoization behavior; shown here at the spec's
own scenario (`"Austin, TX"`, 450000, `"Condo"`). -/
theorem find_properties_call_raises_type_error
    (cache : List (JValue × JValue)) (extract : JValue → JValue)
    (agentRun : String → String) :
    find_properties cache extract agentRun "Austin, TX" 450000 "Condo" none =
      .error .typeError := rfl
